import Mathlib

/-!
Verification of the PLEN ControlServer routing layer
(`control_server/router/router.py`) against its specification.

The file shallowly embeds the routing module:

* the WebSocket command-stream handler `cmdstream` (lines 76-124 of the
  source): `_driver.connect()`, then a receive/split/getattr/call/send loop,
  with a catch-all `except` that calls `_driver.disconnect()` and breaks;
* the CRUD handlers `motion_delete`, `motion_get`, `motion_put`
  and the `enable_cors` decorator;
* the module-level mutable state: the `_empty_motion` sentinel dict
  (aliasing `EMPTY_MOTION`) and the `_driver` singleton with `set_driver`.

Python objects reached by attribute lookup are modelled as finite attribute
maps; Python dict mutation of the shared sentinel is modelled with an
explicit heap of references so that aliasing is observable.
-/

/-- Python values that driver operations return on the command stream.
`str()` of these is what `wsock.send(str(result))` transmits. -/
inductive PyValue
  | vNone
  | vBool (b : Bool)
  | vInt (n : Int)
  | vStr (s : String)
deriving DecidableEq, Repr

/-- Python `str()` on the modelled values: `str(True) = "True"`, etc. -/
def pyStr : PyValue → String
  | .vNone => "None"
  | .vBool true => "True"
  | .vBool false => "False"
  | .vInt n => toString n
  | .vStr s => s

/-- Python truthiness, as used by `if _driver.connect():`. -/
def pyTruthy : PyValue → Bool
  | .vNone => false
  | .vBool b => b
  | .vInt n => n != 0
  | .vStr s => s != ""

/-- Outcome of calling a Python callable: a value, or a raised exception
(carried as a description string). -/
inductive CallOutcome
  | ok (v : PyValue)
  | exn (e : String)
deriving DecidableEq, Repr

/-- A member of a Python object: a callable (method) or a plain data
attribute. Calling a plain attribute raises `TypeError`. -/
inductive DriverAttr
  | method (f : List String → CallOutcome)
  | value (v : PyValue)

/-- A driver object as seen by the command stream: a bag of named members
reached by `getattr`. Nothing restricts the members to the documented
operations — this mirrors Python duck typing. -/
structure StreamDriver where
  attrs : String → Option DriverAttr

/-- `getattr(_driver, name)(*args)`: a missing attribute raises
`AttributeError`; a non-callable attribute raises `TypeError` at the call;
a callable member runs. -/
def callMethod (d : StreamDriver) (name : String) (args : List String) : CallOutcome :=
  match d.attrs name with
  | none => .exn "AttributeError"
  | some (.value _) => .exn "TypeError: object is not callable"
  | some (.method f) => f args

/-- Python `s.split(sep)` with an explicit one-character separator:
always returns a non-empty list; `"".split(sep) = [""]`. Accumulator
recursion over the character list. -/
def splitAux (c : Char) : List Char → List Char → List String
  | [], acc => [String.mk acc.reverse]
  | x :: xs, acc =>
      if x = c then String.mk acc.reverse :: splitAux c xs []
      else splitAux c xs (x :: acc)

/-- `s.split(c)` in Python semantics. -/
def pySplit (s : String) (c : Char) : List String :=
  splitAux c s.toList []

/-- One result of `wsock.receive()`: a text message, or `None` because the
client closed the transport (`None.split` then raises `AttributeError`). -/
inductive RecvEvent
  | msg (s : String)
  | close
deriving DecidableEq, Repr

/-- Observable state of one command-stream session after processing a
finite prefix of events: still inside the dispatch loop, closed normally
through the `except` handler, or an exception escaped the handler (the
hosting framework turns it into an error response; the process survives). -/
inductive SessState
  | streamingS
  | closedS
  | escapedS (e : String)
deriving DecidableEq, Repr

/-- Trace of one session's dispatch loop: replies sent (in order), driver
operations invoked by the dispatcher (in order), number of `disconnect()`
calls made by the `except` handler, and the session state. -/
structure StreamTrace where
  replies : List String
  invoked : List (String × List String)
  errDisconnects : Nat
  state : SessState
deriving DecidableEq, Repr

/-- The `except Exception` branch: log, call `_driver.disconnect()`, break.
If `disconnect()` itself raises, that exception escapes the handler. -/
def failTrace (d : StreamDriver) : StreamTrace :=
  match callMethod d "disconnect" [] with
  | .ok _ => { replies := [], invoked := [], errDisconnects := 1, state := .closedS }
  | .exn e => { replies := [], invoked := [], errDisconnects := 1, state := .escapedS e }

/-- The `while True` receive/dispatch loop of `cmdstream`, run on a finite
prefix of receive events. Per message: `messages = wsock.receive().split('/')`,
`result = getattr(_driver, messages[0])(*messages[1:])`,
`wsock.send(str(result))`; any exception takes the `failTrace` path and the
remaining events are never processed. An exhausted prefix leaves the loop
still awaiting input (`streamingS`). -/
def streamLoop (d : StreamDriver) : List RecvEvent → StreamTrace
  | [] => { replies := [], invoked := [], errDisconnects := 0, state := .streamingS }
  | .close :: _ => failTrace d
  | .msg s :: rest =>
      match pySplit s '/' with
      | [] => failTrace d
      | m :: args =>
          match callMethod d m args with
          | .exn _ => failTrace d
          | .ok v =>
              let t := streamLoop d rest
              { replies := pyStr v :: t.replies,
                invoked := (m, args) :: t.invoked,
                errDisconnects := t.errDisconnects,
                state := t.state }

/-- Outcome of one HTTP request to `/v2/cmdstream` (WebSocket upgrade
assumed): the dispatch loop ran with some trace, the handler called
`abort(code, msg)`, or an exception escaped the handler body. -/
inductive CmdstreamOutcome
  | ranLoop (t : StreamTrace)
  | aborted (code : Nat) (msg : String)
  | handlerError (e : String)
deriving DecidableEq, Repr

/-- The `cmdstream` handler: `if _driver.connect():` run the loop,
`else: abort(404, 'PLEN is not found.')`. A raising `connect()` is not
caught by anything in the handler. Note the handler consults nothing but
the module-level driver: there is no per-session or cross-session state. -/
def cmdstream (d : StreamDriver) (events : List RecvEvent) : CmdstreamOutcome :=
  match callMethod d "connect" [] with
  | .exn e => .handlerError e
  | .ok v =>
      if pyTruthy v then .ranLoop (streamLoop d events)
      else .aborted 404 "PLEN is not found."

/-- Claim C1: a command-stream message `method/arg0/.../argN` whose first
field resolves to a callable driver member and whose invocation succeeds is
dispatched to exactly that member with exactly those string arguments in
order, and the Python `str()` of the result is sent back as the single
reply to that single message, the session remaining in `Streaming`. -/
theorem dispatch_invokes_named_operation (d : StreamDriver) (s m : String)
    (args : List String) (f : List String → CallOutcome) (v : PyValue)
    (rest : List RecvEvent)
    (hsplit : pySplit s '/' = m :: args)
    (hattr : d.attrs m = some (DriverAttr.method f))
    (hcall : f args = CallOutcome.ok v) :
    streamLoop d (RecvEvent.msg s :: rest) =
      { replies := pyStr v :: (streamLoop d rest).replies,
        invoked := (m, args) :: (streamLoop d rest).invoked,
        errDisconnects := (streamLoop d rest).errDisconnects,
        state := (streamLoop d rest).state } ∧
    (streamLoop d [RecvEvent.msg s]).state = SessState.streamingS := by
  constructor
  · simp [streamLoop, hsplit, callMethod, hattr, hcall]
  · simp [streamLoop, hsplit, callMethod, hattr, hcall]

/-- A test driver whose `play` returns `True`: `connect`, `disconnect`,
`play`, and no other members. -/
def playDriver : StreamDriver :=
  { attrs := fun n =>
      if n = "connect" then some (.method fun _ => .ok (.vBool true))
      else if n = "disconnect" then some (.method fun _ => .ok (.vBool true))
      else if n = "play" then
        some (.method fun a => if a.length = 1 then .ok (.vBool true) else .exn "TypeError")
      else none }

/-- Witness for C1: sending `"play/3"` to a driver whose `play` returns
true yields the single reply `"True"` and the session stays streaming. -/
theorem dispatch_invokes_named_operation_w :
    pySplit "play/3" '/' = "play" :: ["3"] ∧
    playDriver.attrs "play" =
      some (DriverAttr.method fun a =>
        if a.length = 1 then CallOutcome.ok (PyValue.vBool true) else CallOutcome.exn "TypeError") ∧
    streamLoop playDriver [RecvEvent.msg "play/3"] =
      { replies := ["True"], invoked := [("play", ["3"])],
        errDisconnects := 0, state := SessState.streamingS } := by
  refine ⟨rfl, rfl, ?_⟩
  have h := dispatch_invokes_named_operation playDriver "play/3" "play" ["3"]
    (fun a => if a.length = 1 then CallOutcome.ok (PyValue.vBool true) else CallOutcome.exn "TypeError")
    (PyValue.vBool true) [] rfl rfl rfl
  exact h.1.trans rfl

/-- A driver that, like any Python object, also has a non-operation member:
here a callable `_logger` helper alongside the documented operations. -/
def leakyDriver : StreamDriver :=
  { attrs := fun n =>
      if n = "connect" then some (.method fun _ => .ok (.vBool true))
      else if n = "disconnect" then some (.method fun _ => .ok (.vBool true))
      else if n = "play" then some (.method fun _ => .ok (.vBool true))
      else if n = "_logger" then some (.method fun _ => .ok (.vStr "leaked"))
      else none }

/-- Counterexample to C2: the message `"_logger"` names a non-operation
member of the driver, yet the dispatcher resolves it via `getattr`,
invokes it, and sends its result — it is not rejected at resolution time,
and the claim that only documented public operations resolve is false. -/
theorem nonoperation_member_invoked :
    streamLoop leakyDriver [RecvEvent.msg "_logger"] =
      { replies := ["leaked"], invoked := [("_logger", [])],
        errDisconnects := 0, state := SessState.streamingS } := by
  rfl

/-- Claim C2 (amended): method-name resolution is Python `getattr` on the
driver object — an exact, case-sensitive match against ALL members, with no
restriction to the documented operations. Any callable member named by the
first field is invoked with the remaining fields; only a name that is not
an attribute at all fails resolution (`AttributeError`), which kills the
session through the `except` path. -/
theorem resolution_is_getattr :
    (∀ (d : StreamDriver) (s m : String) (args : List String)
        (f : List String → CallOutcome) (v : PyValue) (rest : List RecvEvent),
        pySplit s '/' = m :: args →
        d.attrs m = some (DriverAttr.method f) →
        f args = CallOutcome.ok v →
        (streamLoop d (RecvEvent.msg s :: rest)).invoked.head? = some (m, args)) ∧
    (∀ (d : StreamDriver) (s m : String) (args : List String)
        (rest : List RecvEvent) (v : PyValue),
        pySplit s '/' = m :: args →
        d.attrs m = none →
        callMethod d "disconnect" [] = CallOutcome.ok v →
        streamLoop d (RecvEvent.msg s :: rest) =
          { replies := [], invoked := [], errDisconnects := 1,
            state := SessState.closedS }) := by
  constructor
  · intro d s m args f v rest hsplit hattr hcall
    simp [streamLoop, hsplit, callMethod, hattr, hcall]
  · intro d s m args rest v hsplit hattr hdisc
    have hcm : callMethod d m args = CallOutcome.exn "AttributeError" := by
      simp [callMethod, hattr]
    simp [streamLoop, hsplit, hcm, failTrace, hdisc]

/-- Witness for the amended C2: the callable non-operation member
`_logger` is resolved and invoked, and an absent name (`fooBar`) is the
case that fails resolution and closes the session. -/
theorem resolution_is_getattr_w :
    (pySplit "_logger" '/' = "_logger" :: [] ∧
      (streamLoop leakyDriver [RecvEvent.msg "_logger"]).invoked.head? =
        some ("_logger", [])) ∧
    (pySplit "fooBar/1" '/' = "fooBar" :: ["1"] ∧
      leakyDriver.attrs "fooBar" = none ∧
      streamLoop leakyDriver [RecvEvent.msg "fooBar/1"] =
        { replies := [], invoked := [], errDisconnects := 1,
          state := SessState.closedS }) := by
  refine ⟨⟨rfl, ?_⟩, rfl, rfl, ?_⟩
  · exact resolution_is_getattr.1 leakyDriver "_logger" "_logger" []
      (fun _ => CallOutcome.ok (PyValue.vStr "leaked")) (PyValue.vStr "leaked") [] rfl rfl rfl
  · exact resolution_is_getattr.2 leakyDriver "fooBar/1" "fooBar" ["1"] []
      (PyValue.vBool true) rfl rfl rfl

/-- Does dispatching this receive event raise an exception? `close` makes
`receive()` return `None`, so `None.split('/')` raises `AttributeError`;
a message raises when resolution or the invocation itself raises. -/
def dispatchRaises (d : StreamDriver) : RecvEvent → Bool
  | .close => true
  | .msg s =>
      match pySplit s '/' with
      | [] => true
      | m :: args =>
          match callMethod d m args with
          | .exn _ => true
          | .ok _ => false

/-- Claim C3: any exception during resolution or invocation (including an
unknown method name and the client closing the transport) makes the session
call the driver's `disconnect()` exactly once and close; no later event is
processed (the failing command is fatal to the session, not skipped), the
exception is swallowed by the handler so the process survives. -/
theorem failing_command_fatal (d : StreamDriver) (ev : RecvEvent)
    (rest : List RecvEvent) (v : PyValue)
    (hfail : dispatchRaises d ev = true)
    (hdisc : callMethod d "disconnect" [] = CallOutcome.ok v) :
    streamLoop d (ev :: rest) =
      { replies := [], invoked := [], errDisconnects := 1,
        state := SessState.closedS } := by
  cases ev with
  | close => simp [streamLoop, failTrace, hdisc]
  | msg s =>
      simp only [streamLoop]
      cases hps : pySplit s '/' with
      | nil => simp [hps, failTrace, hdisc]
      | cons m args =>
          cases hcm : callMethod d m args with
          | exn e => simp [hps, hcm, failTrace, hdisc]
          | ok v2 =>
              exfalso
              simp [dispatchRaises, hps, hcm] at hfail

/-- Witness for C3: the spec's scenario `"fooBar/1"` (unknown method) on a
driver whose `disconnect` succeeds: one `disconnect()` call, session
closed, a queued later command never invoked. -/
theorem failing_command_fatal_w :
    dispatchRaises playDriver (RecvEvent.msg "fooBar/1") = true ∧
    callMethod playDriver "disconnect" [] = CallOutcome.ok (PyValue.vBool true) ∧
    streamLoop playDriver [RecvEvent.msg "fooBar/1", RecvEvent.msg "play/3"] =
      { replies := [], invoked := [], errDisconnects := 1,
        state := SessState.closedS } :=
  ⟨rfl, rfl,
    failing_command_fatal playDriver (RecvEvent.msg "fooBar/1")
      [RecvEvent.msg "play/3"] (PyValue.vBool true) rfl rfl⟩

/-- Claim C4: `connect()` returning `False` yields the distinct
`abort(404, 'PLEN is not found.')` outcome — never entering the dispatch
loop — while `connect()` raising escapes the handler instead; the two
outcomes are distinct, and the 404 is also distinct from running the loop. -/
theorem connect_false_device_not_found :
    (∀ (d : StreamDriver) (events : List RecvEvent),
        callMethod d "connect" [] = CallOutcome.ok (PyValue.vBool false) →
        cmdstream d events = CmdstreamOutcome.aborted 404 "PLEN is not found.") ∧
    (∀ (d : StreamDriver) (events : List RecvEvent) (e : String),
        callMethod d "connect" [] = CallOutcome.exn e →
        cmdstream d events = CmdstreamOutcome.handlerError e) ∧
    (∀ e : String,
        CmdstreamOutcome.aborted 404 "PLEN is not found." ≠ CmdstreamOutcome.handlerError e) ∧
    (∀ t : StreamTrace,
        CmdstreamOutcome.aborted 404 "PLEN is not found." ≠ CmdstreamOutcome.ranLoop t) := by
  refine ⟨?_, ?_, ?_, ?_⟩
  · intro d events hconn
    simp [cmdstream, hconn, pyTruthy]
  · intro d events e hconn
    simp [cmdstream, hconn]
  · intro e h
    exact CmdstreamOutcome.noConfusion h
  · intro t h
    exact CmdstreamOutcome.noConfusion h

/-- A driver whose device is absent: `connect` returns `False`. -/
def absentDriver : StreamDriver :=
  { attrs := fun n =>
      if n = "connect" then some (.method fun _ => .ok (.vBool false))
      else if n = "disconnect" then some (.method fun _ => .ok (.vBool true))
      else none }

/-- A driver whose `connect` raises. -/
def crashingDriver : StreamDriver :=
  { attrs := fun n =>
      if n = "connect" then some (.method fun _ => .exn "SerialException")
      else none }

/-- Witness for C4: a connect-returns-false driver receives the 404
outcome, and a connect-raising driver escapes with its exception. -/
theorem connect_false_device_not_found_w :
    (callMethod absentDriver "connect" [] = CallOutcome.ok (PyValue.vBool false) ∧
      cmdstream absentDriver [RecvEvent.msg "play/3"] =
        CmdstreamOutcome.aborted 404 "PLEN is not found.") ∧
    (callMethod crashingDriver "connect" [] = CallOutcome.exn "SerialException" ∧
      cmdstream crashingDriver [] = CmdstreamOutcome.handlerError "SerialException") :=
  ⟨⟨rfl, connect_false_device_not_found.1 absentDriver [RecvEvent.msg "play/3"] rfl⟩,
   ⟨rfl, connect_false_device_not_found.2.1 crashingDriver [] "SerialException" rfl⟩⟩

/-- Counterexample to C5: `cmdstream` consults nothing but the module-level
driver — there is no session registry and no "already connected" outcome.
With a first session still in `Streaming` (first conjunct), a second
command-stream attempt against the same shared driver also calls
`connect()`, enters the dispatch loop and serves commands (second
conjunct) instead of failing fast; and when that second session later
fails, it calls `disconnect()` on the shared driver (third conjunct). -/
theorem second_stream_attempt_not_rejected :
    cmdstream playDriver [] =
      CmdstreamOutcome.ranLoop
        { replies := [], invoked := [], errDisconnects := 0,
          state := SessState.streamingS } ∧
    cmdstream playDriver [RecvEvent.msg "play/3"] =
      CmdstreamOutcome.ranLoop
        { replies := ["True"], invoked := [("play", ["3"])],
          errDisconnects := 0, state := SessState.streamingS } ∧
    cmdstream playDriver [RecvEvent.close] =
      CmdstreamOutcome.ranLoop
        { replies := [], invoked := [], errDisconnects := 1,
          state := SessState.closedS } := by
  refine ⟨rfl, rfl, rfl⟩

/-- Claim C5 (amended): the code enforces no at-most-one-`Streaming`
invariant. Every command-stream attempt whose `connect()` call on the
shared module-level driver returns `True` enters the dispatch loop,
independently of any other session: a second concurrent attempt is not
rejected, no "already connected" outcome exists, and the loop it runs
shares the first session's driver (so its failure path calls
`disconnect()` on that driver). -/
theorem streaming_entered_whenever_connect_true
    (d : StreamDriver) (events : List RecvEvent)
    (hconn : callMethod d "connect" [] = CallOutcome.ok (PyValue.vBool true)) :
    cmdstream d events = CmdstreamOutcome.ranLoop (streamLoop d events) := by
  simp [cmdstream, hconn, pyTruthy]

/-- Witness for the amended C5: the shared driver accepts any number of
attempts; shown here on a fresh attempt with one queued command. -/
theorem streaming_entered_whenever_connect_true_w :
    callMethod playDriver "connect" [] = CallOutcome.ok (PyValue.vBool true) ∧
    cmdstream playDriver [RecvEvent.msg "play/3"] =
      CmdstreamOutcome.ranLoop (streamLoop playDriver [RecvEvent.msg "play/3"]) :=
  ⟨rfl, streaming_entered_whenever_connect_true playDriver [RecvEvent.msg "play/3"] rfl⟩

/-- One motion frame: a joint-output vector plus a duration. -/
structure Frame where
  outputs : List Int
  durationMs : Nat
deriving DecidableEq, Repr

/-- A stored motion record: slot, name, ordered frames, transition flag. -/
structure MotionRecord where
  slot : Int
  name : String
  frames : List Frame
  transition : Bool
deriving DecidableEq, Repr

/-- Modelled from the spec: `EMPTY_MOTION` from `models/empty_motion.py` is
imported by the router but that module is not part of the sources under
review. The spec defines the empty-motion sentinel as a well-formed
`MotionRecord` with no frames ("valid-but-inert"); its initial slot and
name are immaterial to the claims, since `motion_delete` overwrites the
slot before every use. -/
def EMPTY_MOTION : MotionRecord :=
  { slot := 0, name := "empty", frames := [], transition := false }

/-- The well-known empty-motion record for slot `S`. -/
def emptyMotionAt (S : Int) : MotionRecord :=
  { EMPTY_MOTION with slot := S }

/-- Modelled from the spec: the driver side of motion storage. Concrete
drivers live under `drivers/`, outside the sources under review; per the
spec a record's `slot` is authoritative, `install` creates/overwrites the
record stored at that slot and reports a boolean result, `getMotion` reads
the stored record. -/
structure MotionStoreDriver where
  store : Int → MotionRecord
  installOk : MotionRecord → Bool

/-- Store update performed by `install(m)`: `m` is stored under `m.slot`. -/
def installStore (st : Int → MotionRecord) (m : MotionRecord) : Int → MotionRecord :=
  fun s => if s = m.slot then m else st s

/-- Module-level mutable state of `router.py`: the binding `_empty_motion`
(a reference to the shared sentinel dict, assigned once at import from
`EMPTY_MOTION` and never rebound), the heap of dict objects it can point
into, and the active driver. -/
structure RouterState where
  emptyMotionRef : Nat
  heap : Nat → MotionRecord
  driver : MotionStoreDriver

/-- In-place mutation of one heap object, as in `_empty_motion['slot'] = SLOT`. -/
def heapUpdate (h : Nat → MotionRecord) (r : Nat) (m : MotionRecord) : Nat → MotionRecord :=
  fun x => if x = r then m else h x

/-- A driver call made by a CRUD handler. `installRef` passes an object by
reference (the argument aliases a module-level dict); `installVal` passes a
request-fresh record (the parsed request body). -/
inductive CrudCall
  | installRef (r : Nat)
  | installVal (m : MotionRecord)
  | getMotionC (s : Int)
deriving DecidableEq, Repr

/-- Payload of a CRUD handler's JSON response. -/
inductive RespData
  | motionD (m : MotionRecord)
  | cmdD (command : String) (result : Bool)
deriving DecidableEq, Repr

/-- A CRUD handler's JSON response: `resource` tag plus `data`. -/
structure Response where
  resource : String
  data : RespData
deriving DecidableEq, Repr

/-- What one CRUD handler run produces: the new module state, the driver
calls it made (in order), and the response body. -/
structure HandlerOut where
  state : RouterState
  calls : List CrudCall
  resp : Response

/-- The DELETE handler for `/v2/motions/<SLOT>`: mutates the shared
sentinel in place (`_empty_motion['slot'] = SLOT`), then calls
`_driver.install(_empty_motion)` — passing the sentinel by reference — and
reports the boolean result under command `"reset"`. -/
def motion_delete (S : Int) (st : RouterState) : HandlerOut :=
  let m1 := { st.heap st.emptyMotionRef with slot := S }
  let heap1 := heapUpdate st.heap st.emptyMotionRef m1
  { state :=
      { st with
        heap := heap1,
        driver := { st.driver with store := installStore st.driver.store m1 } },
    calls := [CrudCall.installRef st.emptyMotionRef],
    resp :=
      { resource := "motions",
        data := RespData.cmdD "reset" (st.driver.installOk m1) } }

/-- The GET handler for `/v2/motions/<SLOT>`: a single `getMotion` call,
no mutation. -/
def motion_get (S : Int) (st : RouterState) : HandlerOut :=
  { state := st,
    calls := [CrudCall.getMotionC S],
    resp := { resource := "motions", data := RespData.motionD (st.driver.store S) } }

/-- The PUT handler for `/v2/motions/<SLOT>`: installs the request body
(`request.json`, a request-fresh object; the URL slot is not consulted)
and reports the boolean result under command `"install"`. -/
def motion_put (_S : Int) (body : MotionRecord) (st : RouterState) : HandlerOut :=
  { state :=
      { st with
        driver := { st.driver with store := installStore st.driver.store body } },
    calls := [CrudCall.installVal body],
    resp :=
      { resource := "motions",
        data := RespData.cmdD "install" (st.driver.installOk body) } }

/-- Claim C6: deleting the motion at slot `S` is idempotent — performing
the delete twice in succession leaves the same stored record at slot `S`
as performing it once. -/
theorem motion_delete_idempotent (st : RouterState) (S : Int) :
    (motion_delete S (motion_delete S st).state).state.driver.store S =
      (motion_delete S st).state.driver.store S := by
  simp [motion_delete, installStore, heapUpdate]

/-- Claim C7: a delete at slot `S` makes exactly one driver call — an
`install` of the sentinel object, whose value at call time is the
well-known empty-motion record (no frames) with its slot field set to `S`
— and the response reports the boolean result of that install under
command `"reset"`. The hypothesis is the module invariant that the shared
sentinel holds the empty-motion value (with whatever slot the previous
delete left). -/
theorem motion_delete_single_install_reset (st : RouterState) (S s0 : Int)
    (hsent : st.heap st.emptyMotionRef = emptyMotionAt s0) :
    (motion_delete S st).calls = [CrudCall.installRef st.emptyMotionRef] ∧
    (motion_delete S st).state.heap st.emptyMotionRef = emptyMotionAt S ∧
    (motion_delete S st).resp =
      { resource := "motions",
        data := RespData.cmdD "reset" (st.driver.installOk (emptyMotionAt S)) } := by
  refine ⟨rfl, ?_, ?_⟩
  · simp [motion_delete, heapUpdate, hsent, emptyMotionAt]
  · simp [motion_delete, hsent, emptyMotionAt]

/-- A concrete initial module state for witnesses: sentinel at reference 0
holding `EMPTY_MOTION`, a driver whose store is all-empty and whose
`install` always succeeds. -/
def testState : RouterState :=
  { emptyMotionRef := 0,
    heap := fun _ => EMPTY_MOTION,
    driver := { store := fun _ => EMPTY_MOTION, installOk := fun _ => true } }

/-- Witness for C7 at slot 5 from the initial module state. -/
theorem motion_delete_single_install_reset_w :
    testState.heap testState.emptyMotionRef = emptyMotionAt 0 ∧
    ((motion_delete 5 testState).calls = [CrudCall.installRef testState.emptyMotionRef] ∧
      (motion_delete 5 testState).state.heap testState.emptyMotionRef = emptyMotionAt 5 ∧
      (motion_delete 5 testState).resp =
        { resource := "motions",
          data := RespData.cmdD "reset" (testState.driver.installOk (emptyMotionAt 5)) }) :=
  ⟨rfl, motion_delete_single_install_reset testState 5 0 rfl⟩

/-- Claim C8: the delete handler mutates the single module-level sentinel
in place. Every delete passes the driver the very same shared object
(`installRef` of the unchanged `_empty_motion` reference — never a fresh
copy), the sentinel object's slot field equals `S` right after a delete at
`S` and is left untouched by the GET and PUT handlers (so it keeps `S`
until the next delete overwrites it); PUT, by contrast, passes a
request-fresh record by value. -/
theorem empty_motion_sentinel_aliased :
    (∀ (st : RouterState) (S : Int),
        (motion_delete S st).calls = [CrudCall.installRef st.emptyMotionRef] ∧
        (motion_delete S st).state.emptyMotionRef = st.emptyMotionRef) ∧
    (∀ (st : RouterState) (S : Int),
        ((motion_delete S st).state.heap st.emptyMotionRef).slot = S) ∧
    (∀ (st : RouterState) (S : Int),
        (motion_get S st).state.heap = st.heap ∧
        (motion_get S st).state.emptyMotionRef = st.emptyMotionRef) ∧
    (∀ (st : RouterState) (S : Int) (body : MotionRecord),
        (motion_put S body st).state.heap = st.heap ∧
        (motion_put S body st).state.emptyMotionRef = st.emptyMotionRef ∧
        (motion_put S body st).calls = [CrudCall.installVal body]) := by
  refine ⟨fun st S => ⟨rfl, rfl⟩, fun st S => ?_, fun st _ => ⟨rfl, rfl⟩,
    fun st S body => ⟨rfl, rfl, rfl⟩⟩
  simp [motion_delete, heapUpdate]

/-- A candidate argument to `set_driver`: a Python object, with whether
`isinstance(obj, AbstractDriver)` holds (the `AbstractDriver` class lives
under `drivers/abstract.py`, outside the sources under review; the
`isinstance` test is therefore an input attribute of the object) and an
identity to tell objects apart. -/
structure PyObj where
  isAbstractDriver : Bool
  oid : Nat
deriving DecidableEq, Repr

/-- `set_driver(driver)`: `if isinstance(driver, AbstractDriver): global
_driver; _driver = driver` — no else branch, nothing raised. Returns the
new value of the module-level `_driver` binding. -/
def set_driver (cur : Option PyObj) (d : PyObj) : Option PyObj :=
  if d.isAbstractDriver then some d else cur

/-- Claim C9: `set_driver` replaces the module-level active driver exactly
when its argument is an `AbstractDriver` instance; for any other argument
it returns without raising and leaves the active driver unchanged. -/
theorem set_driver_guard (cur : Option PyObj) (d : PyObj) :
    (d.isAbstractDriver = true → set_driver cur d = some d) ∧
    (d.isAbstractDriver = false → set_driver cur d = cur) := by
  constructor <;> intro h <;> simp [set_driver, h]

/-- An `AbstractDriver` instance. -/
def absDriverObj : PyObj := { isAbstractDriver := true, oid := 1 }

/-- A non-driver object (e.g. a string or `None`). -/
def plainObj : PyObj := { isAbstractDriver := false, oid := 2 }

/-- Witness for C9: an instance replaces the driver; a non-instance leaves
the previously set driver in place. -/
theorem set_driver_guard_w :
    (absDriverObj.isAbstractDriver = true ∧
      set_driver none absDriverObj = some absDriverObj) ∧
    (plainObj.isAbstractDriver = false ∧
      set_driver (some absDriverObj) plainObj = some absDriverObj) :=
  ⟨⟨rfl, (set_driver_guard none absDriverObj).1 rfl⟩,
   ⟨rfl, (set_driver_guard (some absDriverObj) plainObj).2 rfl⟩⟩

/-- HTTP request methods accepted by the decorated routes. -/
inductive Method
  | OPTIONS
  | GET
  | PUT
  | POST
  | DELETE
deriving DecidableEq, Repr

/-- The three `Access-Control-Allow-*` headers set by `enable_cors`. -/
def corsHeaders : List (String × String) :=
  [("Access-Control-Allow-Origin", "*"),
   ("Access-Control-Allow-Methods", "GET, PUT, POST, DELETE, OPTIONS"),
   ("Access-Control-Allow-Headers",
     "Origin, Accept, Content-Type, X-Requested-With, X-CSRF-Token")]

/-- Result of a CORS-decorated request: new module state, driver calls
made, response headers, and the body (`none` models the Python `None`
returned on the preflight path — an empty response body). -/
structure CorsOut where
  state : RouterState
  calls : List CrudCall
  headers : List (String × String)
  body : Option Response

/-- The `enable_cors` decorator: always set the three headers, then run the
wrapped handler only when the request method is not `OPTIONS`; on
`OPTIONS` return `None` without executing the handler body. -/
def enable_cors (fn : RouterState → HandlerOut) (method : Method)
    (st : RouterState) : CorsOut :=
  if method ≠ Method.OPTIONS then
    let out := fn st
    { state := out.state, calls := out.calls, headers := corsHeaders,
      body := some out.resp }
  else
    { state := st, calls := [], headers := corsHeaders, body := none }

/-- Claim C10: every CORS-decorated handler sets the three
`Access-Control-Allow-*` headers on every request regardless of method,
and an `OPTIONS` request never executes the wrapped handler body: no
driver call is made, the module (and driver) state is unchanged, and the
response body is empty. -/
theorem enable_cors_headers_and_options
    (fn : RouterState → HandlerOut) (method : Method) (st : RouterState) :
    (enable_cors fn method st).headers = corsHeaders ∧
    (method = Method.OPTIONS →
      (enable_cors fn method st).state = st ∧
      (enable_cors fn method st).calls = [] ∧
      (enable_cors fn method st).body = none) := by
  constructor
  · unfold enable_cors
    split <;> rfl
  · intro h
    subst h
    simp [enable_cors]

/-- Witness for C10: an `OPTIONS` preflight on the decorated delete
handler sets the CORS headers but invokes no driver operation and leaves
the state untouched. -/
theorem enable_cors_headers_and_options_w :
    Method.OPTIONS = Method.OPTIONS ∧
    ((enable_cors (motion_delete 3) Method.OPTIONS testState).headers = corsHeaders ∧
      ((enable_cors (motion_delete 3) Method.OPTIONS testState).state = testState ∧
        (enable_cors (motion_delete 3) Method.OPTIONS testState).calls = [] ∧
        (enable_cors (motion_delete 3) Method.OPTIONS testState).body = none)) :=
  ⟨rfl,
    (enable_cors_headers_and_options (motion_delete 3) Method.OPTIONS testState).1,
    (enable_cors_headers_and_options (motion_delete 3) Method.OPTIONS testState).2 rfl⟩
